import Mathlib

/-!
Formal model of the TechtopiaAPI shared MongoDB connection lifecycle manager,
the class DatabaseConnection of src/config/database.ts.  The manager owns the
process-wide mongoose handle: it resolves configuration from the environment,
wires lifecycle event listeners and process signal handlers, and exposes
connect, disconnect, getConnectionStatus and ping to uncoordinated callers.

The embedding follows the JavaScript event-loop semantics: each async method
runs atomically up to its first await.  The synchronous prefix of connect is
the function connectPhase1; the continuation after awaiting the mongoose
connect promise is connectResumeSuccess (resolution) or connectResumeRejected
(rejection, i.e. the catch block).  Underlying mongoose effects (readyState
changes, lifecycle event emission) are modelled as explicit state transformers.
-/

deriving instance DecidableEq for Except

/-- Relevant process environment variables, as read by the manager. -/
structure Env where
  mongodbUri : Option String
  nodeEnv : Option String
  deriving DecidableEq

/-- Boolean test that a character list begins with a given pattern.  Used to
model the String.startsWith calls of getConfig in a kernel-computable way. -/
def charsLeadWith : List Char → List Char → Bool
  | [], _ => true
  | _ :: _, [] => false
  | p :: ps, c :: cs => p == c && charsLeadWith ps cs

/-- Models String.startsWith from the source: does s start with pat. -/
def strStartsWith (s pat : String) : Bool :=
  charsLeadWith pat.data s.data

/-- The two configuration validation failures thrown by getConfig:
a missing MONGODB_URI, or a URI not matching a MongoDB connection scheme. -/
inductive ConfigError where
  | missingUri
  | invalidFormat
  deriving DecidableEq

/-- The mongoose ConnectOptions object built by getConfig. -/
structure ConnectOptions where
  maxPoolSize : Nat
  minPoolSize : Nat
  maxIdleTimeMS : Nat
  serverSelectionTimeoutMS : Nat
  socketTimeoutMS : Nat
  heartbeatFrequencyMS : Nat
  retryWrites : Bool
  w : String
  compressors : List String
  zlibCompressionLevel : Nat
  family : Nat
  bufferCommands : Bool
  connectTimeoutMS : Nat
  maxConnecting : Nat
  monitorCommands : Bool
  deriving DecidableEq

/-- The MongoConfig interface: connection URI plus options. -/
structure MongoConfig where
  uri : String
  options : ConnectOptions
  deriving DecidableEq

/-- DatabaseConnection.getConfig: reads MONGODB_URI from the environment,
throws if it is absent or does not start with mongodb+srv:// or mongodb://,
and otherwise returns the URI with the hard-coded option set. -/
def getConfig (env : Env) : Except ConfigError MongoConfig :=
  match env.mongodbUri with
  | none => .error .missingUri
  | some uri =>
    if !(strStartsWith uri "mongodb+srv://") && !(strStartsWith uri "mongodb://") then
      .error .invalidFormat
    else
      .ok { uri := uri
            options :=
              { maxPoolSize := 5
                minPoolSize := 1
                maxIdleTimeMS := 30000
                serverSelectionTimeoutMS := 10000
                socketTimeoutMS := 45000
                heartbeatFrequencyMS := 10000
                retryWrites := true
                w := "majority"
                compressors := ["zstd", "snappy", "zlib"]
                zlibCompressionLevel := 6
                family := 4
                bufferCommands := false
                connectTimeoutMS := 30000
                maxConnecting := 2
                monitorCommands := env.nodeEnv == some "development" } }

/-- State of the underlying mongoose.connection object: its readyState
(0 disconnected, 1 connected, 2 connecting, 3 disconnecting) and the
endpoint data it exposes. -/
structure MongooseConnection where
  readyState : Nat
  host : Option String
  port : Option Nat
  name : Option String
  deriving DecidableEq

/-- How many listeners are registered on mongoose.connection for each of the
five lifecycle events wired by setupEventListeners. -/
structure ListenerCounts where
  connected : Nat
  error : Nat
  disconnected : Nat
  reconnected : Nat
  close : Nat
  deriving DecidableEq

/-- How many process signal handlers are registered for SIGINT and SIGTERM. -/
structure SignalHandlerCounts where
  sigint : Nat
  sigterm : Nat
  deriving DecidableEq

/-- The two mutable fields of the DatabaseConnection singleton: the
isConnected flag and the cached connection promise (by promise id). -/
structure ManagerFields where
  isConnected : Bool
  connectionPromise : Option Nat
  deriving DecidableEq

/-- Whole-world state: the singleton manager fields, the mongoose connection,
the registered listeners and signal handlers, a counter supplying fresh
promise ids, and a count of underlying mongoose.connect invocations. -/
structure GlobalState where
  db : ManagerFields
  conn : MongooseConnection
  listeners : ListenerCounts
  signals : SignalHandlerCounts
  nextPromiseId : Nat
  attemptsStarted : Nat
  deriving DecidableEq

/-- DatabaseConnection.setupEventListeners: registers one listener for each of
the five connection lifecycle events and one handler for each of SIGINT and
SIGTERM.  Nothing is ever removed. -/
def setupEventListeners (s : GlobalState) : GlobalState :=
  { s with
    listeners :=
      { connected := s.listeners.connected + 1
        error := s.listeners.error + 1
        disconnected := s.listeners.disconnected + 1
        reconnected := s.listeners.reconnected + 1
        close := s.listeners.close + 1 }
    signals :=
      { sigint := s.signals.sigint + 1
        sigterm := s.signals.sigterm + 1 } }

/-- The five connection lifecycle events emitted by mongoose.connection. -/
inductive LifecycleEvent where
  | connected
  | error
  | disconnected
  | reconnected
  | close
  deriving DecidableEq

/-- Firing of a lifecycle event: when at least one listener is registered the
listener body from setupEventListeners runs (all registered copies perform the
same assignment to isConnected); with no listener the event has no effect. -/
def emitEvent (e : LifecycleEvent) (s : GlobalState) : GlobalState :=
  match e with
  | .connected =>
    if s.listeners.connected > 0 then
      { s with db := { s.db with isConnected := true } }
    else s
  | .error =>
    if s.listeners.error > 0 then
      { s with db := { s.db with isConnected := false } }
    else s
  | .disconnected =>
    if s.listeners.disconnected > 0 then
      { s with db := { s.db with isConnected := false } }
    else s
  | .reconnected =>
    if s.listeners.reconnected > 0 then
      { s with db := { s.db with isConnected := true } }
    else s
  | .close =>
    if s.listeners.close > 0 then
      { s with db := { s.db with isConnected := false } }
    else s

/-- Errors surfaced by connect after configuration passed: the mongoose
connect promise rejected, or the post-await readyState check failed. -/
inductive ConnectError where
  | rejected
  | notEstablished
  deriving DecidableEq

/-- What the synchronous prefix of a connect invocation did: awaited an
existing cached promise, returned the live connection on the fast path,
started a fresh underlying attempt with the resolved configuration, or threw
a configuration error. -/
inductive ConnectAction where
  | awaitExisting (pid : Nat)
  | returnCached
  | started (pid : Nat) (cfg : MongoConfig)
  | configFailed (e : ConfigError)
  deriving DecidableEq

/-- The state produced when connect takes the slow path: listeners and signal
handlers are registered, the fresh promise is cached, mongoose moves to
readyState 2 (connecting), and one underlying attempt is counted. -/
def startedState (s : GlobalState) : GlobalState :=
  let s1 := setupEventListeners s
  { s1 with
    db := { s1.db with connectionPromise := some s1.nextPromiseId }
    conn := { s1.conn with readyState := 2 }
    nextPromiseId := s1.nextPromiseId + 1
    attemptsStarted := s1.attemptsStarted + 1 }

/-- DatabaseConnection.connect, synchronous prefix up to its first await.
In order: if connectionPromise is set, await it; else if isConnected and
readyState is 1, return the existing connection; else resolve configuration
(the catch block resets both manager fields on a thrown configuration error),
register listeners, and start mongoose.connect, caching its promise. -/
def connectPhase1 (env : Env) (s : GlobalState) : GlobalState × ConnectAction :=
  match s.db.connectionPromise with
  | some pid => (s, .awaitExisting pid)
  | none =>
    if s.db.isConnected && s.conn.readyState == 1 then
      (s, .returnCached)
    else
      match getConfig env with
      | .error e =>
        ({ s with db := { isConnected := false, connectionPromise := none } },
         .configFailed e)
      | .ok cfg => (startedState s, .started s.nextPromiseId cfg)

/-- Endpoint data reported by the server once a connection is established. -/
structure ServerInfo where
  host : String
  port : Nat
  dbName : String
  deriving DecidableEq

/-- Resolution of the underlying mongoose.connect promise: the connection
reaches readyState 1, exposes the endpoint data, and emits the connected
lifecycle event. -/
def mongooseResolve (s : GlobalState) (info : ServerInfo) : GlobalState :=
  let s1 :=
    { s with
      conn :=
        { readyState := 1
          host := some info.host
          port := some info.port
          name := some info.dbName } }
  emitEvent .connected s1

/-- Continuation of connect after its awaited promise resolved: if
readyState is not 1 the method throws, so the catch block resets isConnected
and connectionPromise; otherwise it returns the mongoose instance, leaving
connectionPromise untouched. -/
def connectResumeSuccess (s : GlobalState) : GlobalState × Except ConnectError Unit :=
  if s.conn.readyState != 1 then
    ({ s with db := { isConnected := false, connectionPromise := none } },
     .error .notEstablished)
  else
    (s, .ok ())

/-- Continuation of connect after its awaited promise rejected: the catch
block sets isConnected to false, clears connectionPromise, and rethrows. -/
def connectResumeRejected (s : GlobalState) (e : ConnectError) :
    GlobalState × Except ConnectError Unit :=
  ({ s with db := { isConnected := false, connectionPromise := none } }, .error e)

/-- Failure of disconnect when the underlying close primitive throws. -/
inductive CloseError where
  | closeFailed
  deriving DecidableEq

/-- Successful mongoose.disconnect: the connection drops to readyState 0 and
emits the disconnected and close lifecycle events. -/
def mongooseDisconnect (s : GlobalState) : GlobalState :=
  let s1 := { s with conn := { s.conn with readyState := 0 } }
  emitEvent .close (emitEvent .disconnected s1)

/-- DatabaseConnection.disconnect: when readyState is not 0 it awaits
mongoose.disconnect and then resets isConnected and connectionPromise; when
the close primitive throws (closeOk false), the catch rethrows and neither
field is touched; when already at readyState 0 it returns at once.  The last
component records whether the underlying close primitive was invoked. -/
def disconnect (s : GlobalState) (closeOk : Bool) :
    GlobalState × Except CloseError Unit × Bool :=
  if s.conn.readyState != 0 then
    if closeOk then
      let s1 := mongooseDisconnect s
      ({ s1 with db := { isConnected := false, connectionPromise := none } },
       .ok (), true)
    else
      (s, .error .closeFailed, true)
  else
    (s, .ok (), false)

/-- The record returned by getConnectionStatus. -/
structure ConnectionStatus where
  isConnected : Bool
  readyState : Nat
  readyStateString : String
  host : Option String
  port : Option Nat
  database : Option String
  deriving DecidableEq

/-- The readyStates lookup table of getConnectionStatus, with the
unknown fallback. -/
def readyStateName (n : Nat) : String :=
  if n = 0 then "disconnected"
  else if n = 1 then "connected"
  else if n = 2 then "connecting"
  else if n = 3 then "disconnecting"
  else "unknown"

/-- DatabaseConnection.getConnectionStatus: builds the status record from the
manager flag and the mongoose connection.  The returned state is the state
the method leaves behind; the method body performs no assignment. -/
def getConnectionStatus (s : GlobalState) : ConnectionStatus × GlobalState :=
  ({ isConnected := s.db.isConnected
     readyState := s.conn.readyState
     readyStateString := readyStateName s.conn.readyState
     host := s.conn.host
     port := s.conn.port
     database := s.conn.name }, s)

/-- Failure of the admin ping probe issued by ping. -/
inductive ProbeError where
  | failed
  deriving DecidableEq

/-- DatabaseConnection.ping: returns false at once when the isConnected flag
is down; otherwise issues the admin ping probe, returning true on success and
false (the catch block) on probe failure.  The second component records
whether a probe was issued. -/
def ping (s : GlobalState) (probe : Except ProbeError Unit) : Bool × Bool :=
  if !s.db.isConnected then
    (false, false)
  else
    match probe with
    | .ok _ => (true, true)
    | .error _ => (false, true)

/-- A burst of n connect invocations, each running its synchronous prefix to
completion before the next starts (JavaScript run-to-completion), with no
promise settling in between. -/
def connectBurst (env : Env) (s : GlobalState) : Nat → GlobalState × List ConnectAction
  | 0 => (s, [])
  | Nat.succ n =>
    let p := connectPhase1 env s
    let q := connectBurst env p.1 n
    (q.1, p.2 :: q.2)

/-- One full reconnect cycle: a connect invocation that starts a fresh
attempt, resolution of the underlying promise, the post-await continuation,
then a successful disconnect. -/
def reconnectCycle (env : Env) (info : ServerInfo) (s : GlobalState) : GlobalState :=
  let s1 := (connectPhase1 env s).1
  let s2 := mongooseResolve s1 info
  let s3 := (connectResumeSuccess s2).1
  (disconnect s3 true).1

/-- The freshly created singleton: disconnected, nothing cached, nothing
registered. -/
def initState : GlobalState :=
  { db := { isConnected := false, connectionPromise := none }
    conn := { readyState := 0, host := none, port := none, name := none }
    listeners := { connected := 0, error := 0, disconnected := 0, reconnected := 0, close := 0 }
    signals := { sigint := 0, sigterm := 0 }
    nextPromiseId := 0
    attemptsStarted := 0 }

/-- A sample environment holding a well-formed connection URI. -/
def envA : Env :=
  { mongodbUri := some "mongodb://hostA:27017/techtopia", nodeEnv := none }

/-- A second sample environment with a different well-formed URI. -/
def envB : Env :=
  { mongodbUri := some "mongodb://hostB:27017/techtopia", nodeEnv := none }

/-- A sample environment with no connection URI at all. -/
def envMissing : Env :=
  { mongodbUri := none, nodeEnv := none }

/-- Sample endpoint data reported on a successful connection. -/
def sampleInfo : ServerInfo :=
  { host := "hostA", port := 27017, dbName := "techtopia" }

/-- The configuration getConfig resolves under envA. -/
def cfgA : MongoConfig :=
  { uri := "mongodb://hostA:27017/techtopia"
    options :=
      { maxPoolSize := 5
        minPoolSize := 1
        maxIdleTimeMS := 30000
        serverSelectionTimeoutMS := 10000
        socketTimeoutMS := 45000
        heartbeatFrequencyMS := 10000
        retryWrites := true
        w := "majority"
        compressors := ["zstd", "snappy", "zlib"]
        zlibCompressionLevel := 6
        family := 4
        bufferCommands := false
        connectTimeoutMS := 30000
        maxConnecting := 2
        monitorCommands := false } }

/-- The configuration getConfig resolves under envB. -/
def cfgB : MongoConfig :=
  { uri := "mongodb://hostB:27017/techtopia"
    options := cfgA.options }

/-- A state the manager reaches once connected: handle cached, flag up,
listeners registered, mongoose at readyState 1. -/
def connectedState : GlobalState :=
  { db := { isConnected := true, connectionPromise := some 0 }
    conn := { readyState := 1, host := some "hostA", port := some 27017, name := some "techtopia" }
    listeners := { connected := 1, error := 1, disconnected := 1, reconnected := 1, close := 1 }
    signals := { sigint := 1, sigterm := 1 }
    nextPromiseId := 1
    attemptsStarted := 1 }

/-- A state holding a cached connection promise with id 5. -/
def cachedState : GlobalState :=
  { initState with db := { isConnected := true, connectionPromise := some 5 } }

/-- The initial state with the mongoose readyState forced to a given value. -/
def stateWithReady (n : Nat) : GlobalState :=
  { initState with conn := { initState.conn with readyState := n } }

/-- When a connection promise is cached, the synchronous prefix of connect
returns it at once and changes nothing. -/
theorem connectPhase1_cached (env : Env) (s : GlobalState) (pid : Nat)
    (h : s.db.connectionPromise = some pid) :
    connectPhase1 env s = (s, ConnectAction.awaitExisting pid) := by
  simp [connectPhase1, h]

/-- With no cached promise, the flag down and a valid configuration, connect
takes the slow path. -/
theorem connectPhase1_slow (env : Env) (s : GlobalState) (cfg : MongoConfig)
    (h1 : s.db.connectionPromise = none) (h2 : s.db.isConnected = false)
    (h3 : getConfig env = Except.ok cfg) :
    connectPhase1 env s = (startedState s, ConnectAction.started s.nextPromiseId cfg) := by
  simp [connectPhase1, h1, h2, h3]

/-- With no cached promise, the flag down and an invalid configuration,
connect throws out of getConfig and its catch block resets the fields. -/
theorem connectPhase1_configFail (env : Env) (s : GlobalState) (e : ConfigError)
    (h1 : s.db.connectionPromise = none) (h2 : s.db.isConnected = false)
    (h3 : getConfig env = Except.error e) :
    connectPhase1 env s =
      ({ s with db := { isConnected := false, connectionPromise := none } },
       ConnectAction.configFailed e) := by
  simp [connectPhase1, h1, h2, h3]

/-- Every burst of connect invocations against a state holding a cached
promise awaits that same promise and leaves the state unchanged. -/
theorem connectBurst_cached (env : Env) (pid : Nat) :
    ∀ (n : Nat) (s : GlobalState), s.db.connectionPromise = some pid →
      connectBurst env s n = (s, List.replicate n (ConnectAction.awaitExisting pid)) := by
  intro n
  induction n with
  | zero => intro s h; simp [connectBurst]
  | succ n ih =>
    intro s h
    simp [connectBurst, connectPhase1_cached env s pid h, ih s h, List.replicate_succ]

/-- Lifecycle event listeners never touch the mongoose connection record. -/
theorem emitEvent_conn (e : LifecycleEvent) (s : GlobalState) :
    (emitEvent e s).conn = s.conn := by
  cases e <;> simp only [emitEvent] <;> split <;> rfl

/-- Lifecycle event listeners never touch the cached connection promise. -/
theorem emitEvent_promise (e : LifecycleEvent) (s : GlobalState) :
    (emitEvent e s).db.connectionPromise = s.db.connectionPromise := by
  cases e <;> simp only [emitEvent] <;> split <;> rfl

/-- Lifecycle event listeners never change the registered listener counts. -/
theorem emitEvent_listeners (e : LifecycleEvent) (s : GlobalState) :
    (emitEvent e s).listeners = s.listeners := by
  cases e <;> simp only [emitEvent] <;> split <;> rfl

/-- A successful disconnect always leaves mongoose at readyState 0. -/
theorem disconnect_ok_readyState (s : GlobalState) :
    (disconnect s true).1.conn.readyState = 0 := by
  by_cases h : s.conn.readyState = 0
  · simp [disconnect, h]
  · simp [disconnect, h, mongooseDisconnect, emitEvent_conn]

/-- C1: for every burst of concurrent connect() invocations issued while the
manager is disconnected (no cached promise, flag down) under a valid
configuration, exactly one underlying connect attempt is started, and every
other caller awaits the very same promise, so all callers resolve against the
same attempt and receive the same handle or the same error. -/
theorem connect_concurrent_single_attempt (env : Env) (s : GlobalState)
    (h1 : s.db.connectionPromise = none) (h2 : s.db.isConnected = false)
    (cfg : MongoConfig) (h3 : getConfig env = Except.ok cfg) (n : Nat) :
    (connectBurst env s (n + 1)).2 =
      ConnectAction.started s.nextPromiseId cfg ::
        List.replicate n (ConnectAction.awaitExisting s.nextPromiseId) ∧
    (connectBurst env s (n + 1)).1.attemptsStarted = s.attemptsStarted + 1 := by
  have hb := connectBurst_cached env s.nextPromiseId n (startedState s) rfl
  constructor
  · simp [connectBurst, connectPhase1_slow env s cfg h1 h2 h3, hb]
  · simp [connectBurst, connectPhase1_slow env s cfg h1 h2 h3, hb]
    rfl

/-- Witness for C1: three concurrent callers on the fresh singleton under a
well-formed URI produce one started attempt and two awaiters of promise 0. -/
theorem connect_concurrent_single_attempt_witness :
    (connectBurst envA initState (2 + 1)).2 =
      ConnectAction.started initState.nextPromiseId cfgA ::
        List.replicate 2 (ConnectAction.awaitExisting initState.nextPromiseId) ∧
    (connectBurst envA initState (2 + 1)).1.attemptsStarted =
      initState.attemptsStarted + 1 :=
  connect_concurrent_single_attempt envA initState rfl rfl cfgA rfl 2

/-- C2 counterexample: a successful connect attempt from the fresh singleton
resolves with no error, yet connectionPromise is still set afterwards: the
in-flight marker is not cleared before connect returns and is present while
no attempt is pending. -/
theorem connect_success_marker_not_cleared_cex :
    (connectResumeSuccess (mongooseResolve (connectPhase1 envA initState).1 sampleInfo)).2 =
      Except.ok () ∧
    (connectResumeSuccess (mongooseResolve (connectPhase1 envA initState).1 sampleInfo)).1.db.connectionPromise =
      some 0 := by
  decide

/-- C2 as amended: when a connect attempt succeeds the manager transitions to
connected (flag up via the connected listener, readyState 1), but the
connectionPromise field keeps the promise of the attempt, serving as the
cache for later calls; only the rejection path clears it. -/
theorem connect_success_transitions (env : Env) (s : GlobalState) (cfg : MongoConfig)
    (info : ServerInfo) (h1 : s.db.connectionPromise = none)
    (h2 : s.db.isConnected = false) (h3 : getConfig env = Except.ok cfg) :
    (connectResumeSuccess (mongooseResolve (connectPhase1 env s).1 info)).2 = Except.ok () ∧
    (connectResumeSuccess (mongooseResolve (connectPhase1 env s).1 info)).1.db.isConnected = true ∧
    (connectResumeSuccess (mongooseResolve (connectPhase1 env s).1 info)).1.conn.readyState = 1 ∧
    (connectResumeSuccess (mongooseResolve (connectPhase1 env s).1 info)).1.db.connectionPromise =
      some s.nextPromiseId ∧
    (∀ (t : GlobalState) (e : ConnectError),
      (connectResumeRejected t e).1.db.connectionPromise = none) := by
  rw [connectPhase1_slow env s cfg h1 h2 h3]
  refine ⟨?_, ?_, ?_, ?_, fun t e => rfl⟩ <;>
    simp [mongooseResolve, emitEvent, connectResumeSuccess, startedState, setupEventListeners]

/-- Witness for C2 as amended, at the fresh singleton under envA. -/
theorem connect_success_transitions_witness :
    (connectResumeSuccess (mongooseResolve (connectPhase1 envA initState).1 sampleInfo)).2 =
      Except.ok () ∧
    (connectResumeSuccess (mongooseResolve (connectPhase1 envA initState).1 sampleInfo)).1.db.isConnected = true ∧
    (connectResumeSuccess (mongooseResolve (connectPhase1 envA initState).1 sampleInfo)).1.conn.readyState = 1 ∧
    (connectResumeSuccess (mongooseResolve (connectPhase1 envA initState).1 sampleInfo)).1.db.connectionPromise =
      some initState.nextPromiseId ∧
    (∀ (t : GlobalState) (e : ConnectError),
      (connectResumeRejected t e).1.db.connectionPromise = none) :=
  connect_success_transitions envA initState cfgA sampleInfo rfl rfl rfl

/-- C3 counterexample: connect succeeds under envA (URI of hostA), then a
successful disconnect clears the cached promise; changing the environment to
envB makes the next connect resolve a configuration with the hostB URI, so
the configuration used after the first successful connect does change with
the environment. -/
theorem config_env_change_cex :
    (connectPhase1 envA initState).2 = ConnectAction.started 0 cfgA ∧
    (connectResumeSuccess (mongooseResolve (connectPhase1 envA initState).1 sampleInfo)).2 =
      Except.ok () ∧
    (connectPhase1 envB
        (disconnect
          (connectResumeSuccess (mongooseResolve (connectPhase1 envA initState).1 sampleInfo)).1
          true).1).2 = ConnectAction.started 1 cfgB ∧
    cfgA.uri ≠ cfgB.uri := by
  decide

/-- C3 as amended: configuration is not cached; it is resolved from the
current environment exactly when connect starts a new underlying attempt.
While a cached promise persists, connect never resolves configuration at all,
so environment changes have no effect only during that window. -/
theorem config_resolution_per_attempt :
    (∀ (env : Env) (s : GlobalState) (pid : Nat),
        s.db.connectionPromise = some pid →
        connectPhase1 env s = (s, ConnectAction.awaitExisting pid)) ∧
    (∀ (env : Env) (s : GlobalState) (cfg : MongoConfig),
        s.db.connectionPromise = none → s.db.isConnected = false →
        getConfig env = Except.ok cfg →
        (connectPhase1 env s).2 = ConnectAction.started s.nextPromiseId cfg) :=
  ⟨fun env s pid h => connectPhase1_cached env s pid h,
   fun env s cfg h1 h2 h3 => by rw [connectPhase1_slow env s cfg h1 h2 h3]⟩

/-- Witness for C3 as amended: a cached promise short-circuits connect under
any environment, and a fresh slow-path connect under envB resolves the envB
configuration. -/
theorem config_resolution_per_attempt_witness :
    connectPhase1 envB cachedState = (cachedState, ConnectAction.awaitExisting 5) ∧
    (connectPhase1 envB initState).2 = ConnectAction.started initState.nextPromiseId cfgB :=
  ⟨config_resolution_per_attempt.1 envB cachedState 5 rfl,
   config_resolution_per_attempt.2 envB initState cfgB rfl rfl rfl⟩

/-- C4: when the URI is absent or lacks a recognized scheme, connect fails
with a configuration error: no listener or signal handler is registered and
no underlying connect attempt is counted; the catch block resets the two
manager fields. -/
theorem connect_config_error_no_effects (env : Env) (s : GlobalState)
    (h1 : s.db.connectionPromise = none) (h2 : s.db.isConnected = false)
    (h3 : env.mongodbUri = none ∨
          ∃ uri, env.mongodbUri = some uri ∧
            strStartsWith uri "mongodb+srv://" = false ∧
            strStartsWith uri "mongodb://" = false) :
    (∃ e, connectPhase1 env s =
        ({ s with db := { isConnected := false, connectionPromise := none } },
         ConnectAction.configFailed e)) ∧
    (connectPhase1 env s).1.listeners = s.listeners ∧
    (connectPhase1 env s).1.signals = s.signals ∧
    (connectPhase1 env s).1.attemptsStarted = s.attemptsStarted := by
  have herr : ∃ e, getConfig env = Except.error e := by
    rcases h3 with h | ⟨uri, hu, hp, hq⟩
    · exact ⟨ConfigError.missingUri, by simp [getConfig, h]⟩
    · exact ⟨ConfigError.invalidFormat, by simp [getConfig, hu, hp, hq]⟩
  rcases herr with ⟨e, he⟩
  have hc := connectPhase1_configFail env s e h1 h2 he
  exact ⟨⟨e, hc⟩, by rw [hc], by rw [hc], by rw [hc]⟩

/-- Witness for C4: the fresh singleton with no MONGODB_URI set. -/
theorem connect_config_error_no_effects_witness :
    (∃ e, connectPhase1 envMissing initState =
        ({ initState with db := { isConnected := false, connectionPromise := none } },
         ConnectAction.configFailed e)) ∧
    (connectPhase1 envMissing initState).1.listeners = initState.listeners ∧
    (connectPhase1 envMissing initState).1.signals = initState.signals ∧
    (connectPhase1 envMissing initState).1.attemptsStarted = initState.attemptsStarted :=
  connect_config_error_no_effects envMissing initState rfl rfl (Or.inl rfl)

/-- C5: disconnect is idempotent.  When mongoose is already at readyState 0
it returns at once with no error and without invoking the close primitive;
after a first disconnect whose underlying close succeeds, a second disconnect
returns no error, invokes no close, and leaves readyState 0; and when the
first call actually closed, both manager fields are reset. -/
theorem disconnect_idempotent (s : GlobalState) (b : Bool) :
    (s.conn.readyState = 0 → disconnect s true = (s, Except.ok (), false)) ∧
    (disconnect ((disconnect s true).1) b).2.1 = Except.ok () ∧
    (disconnect ((disconnect s true).1) b).2.2 = false ∧
    (disconnect ((disconnect s true).1) b).1.conn.readyState = 0 ∧
    (s.conn.readyState ≠ 0 →
      (disconnect s true).1.db.isConnected = false ∧
      (disconnect s true).1.db.connectionPromise = none) := by
  have hzero : ∀ (t : GlobalState) (c : Bool), t.conn.readyState = 0 →
      disconnect t c = (t, Except.ok (), false) := by
    intro t c ht
    simp [disconnect, ht]
  have hsecond := hzero ((disconnect s true).1) b (disconnect_ok_readyState s)
  refine ⟨fun h => hzero s true h, ?_, ?_, ?_, ?_⟩
  · rw [hsecond]
  · rw [hsecond]
  · rw [hsecond]; exact disconnect_ok_readyState s
  · intro h
    constructor <;> simp [disconnect, h, mongooseDisconnect]

/-- Witness for C5: a no-op disconnect on the fresh singleton, and a double
disconnect from a connected state. -/
theorem disconnect_idempotent_witness :
    disconnect initState true = (initState, Except.ok (), false) ∧
    (disconnect ((disconnect connectedState true).1) true).2.1 = Except.ok () ∧
    (disconnect ((disconnect connectedState true).1) true).1.conn.readyState = 0 ∧
    (disconnect connectedState true).1.db.isConnected = false :=
  ⟨(disconnect_idempotent initState true).1 rfl,
   (disconnect_idempotent connectedState true).2.1,
   (disconnect_idempotent connectedState true).2.2.2.1,
   ((disconnect_idempotent connectedState true).2.2.2.2 (by decide)).1⟩

/-- C6: ping never throws.  Whenever the isConnected flag is down it returns
false without issuing a probe, and whenever the issued probe fails the catch
block turns the failure into false; the result type is a plain boolean, so no
error ever escapes. -/
theorem ping_never_throws :
    (∀ (s : GlobalState) (probe : Except ProbeError Unit),
        s.db.isConnected = false → ping s probe = (false, false)) ∧
    (∀ (s : GlobalState) (e : ProbeError), (ping s (Except.error e)).1 = false) := by
  constructor
  · intro s probe h
    simp [ping, h]
  · intro s e
    by_cases h : s.db.isConnected <;> simp [ping, h]

/-- Witness for C6: ping on the disconnected fresh singleton, and ping on a
connected state whose probe fails. -/
theorem ping_never_throws_witness :
    ping initState (Except.ok ()) = (false, false) ∧
    (ping connectedState (Except.error ProbeError.failed)).1 = false :=
  ⟨ping_never_throws.1 initState (Except.ok ()) rfl,
   ping_never_throws.2 connectedState ProbeError.failed⟩

/-- C7: getConnectionStatus is a pure snapshot: it returns the state it was
given unchanged, and the reported record is exactly the manager flag, the
mongoose readyState with its name, and the endpoint host, port and database
name. -/
theorem getStatus_pure_snapshot (s : GlobalState) :
    (getConnectionStatus s).2 = s ∧
    (getConnectionStatus s).1.isConnected = s.db.isConnected ∧
    (getConnectionStatus s).1.readyState = s.conn.readyState ∧
    (getConnectionStatus s).1.host = s.conn.host ∧
    (getConnectionStatus s).1.port = s.conn.port ∧
    (getConnectionStatus s).1.database = s.conn.name ∧
    (s.conn.readyState = 0 → (getConnectionStatus s).1.readyStateString = "disconnected") ∧
    (s.conn.readyState = 1 → (getConnectionStatus s).1.readyStateString = "connected") ∧
    (s.conn.readyState = 2 → (getConnectionStatus s).1.readyStateString = "connecting") ∧
    (s.conn.readyState = 3 → (getConnectionStatus s).1.readyStateString = "disconnecting") ∧
    (3 < s.conn.readyState → (getConnectionStatus s).1.readyStateString = "unknown") := by
  refine ⟨rfl, rfl, rfl, rfl, rfl, rfl, ?_, ?_, ?_, ?_, ?_⟩ <;> intro h
  · simp [getConnectionStatus, readyStateName, h]
  · simp [getConnectionStatus, readyStateName, h]
  · simp [getConnectionStatus, readyStateName, h]
  · simp [getConnectionStatus, readyStateName, h]
  · have h0 : s.conn.readyState ≠ 0 := by omega
    have h1 : s.conn.readyState ≠ 1 := by omega
    have h2 : s.conn.readyState ≠ 2 := by omega
    have h3 : s.conn.readyState ≠ 3 := by omega
    simp [getConnectionStatus, readyStateName, h0, h1, h2, h3]

/-- Witness for C7: the snapshot on concrete states covering every
readyState branch, including the unknown fallback. -/
theorem getStatus_pure_snapshot_witness :
    (getConnectionStatus initState).2 = initState ∧
    (getConnectionStatus initState).1.readyStateString = "disconnected" ∧
    (getConnectionStatus (stateWithReady 1)).1.readyStateString = "connected" ∧
    (getConnectionStatus (stateWithReady 2)).1.readyStateString = "connecting" ∧
    (getConnectionStatus (stateWithReady 3)).1.readyStateString = "disconnecting" ∧
    (getConnectionStatus (stateWithReady 4)).1.readyStateString = "unknown" :=
  ⟨(getStatus_pure_snapshot initState).1,
   (getStatus_pure_snapshot initState).2.2.2.2.2.2.1 rfl,
   (getStatus_pure_snapshot (stateWithReady 1)).2.2.2.2.2.2.2.1 rfl,
   (getStatus_pure_snapshot (stateWithReady 2)).2.2.2.2.2.2.2.2.1 rfl,
   (getStatus_pure_snapshot (stateWithReady 3)).2.2.2.2.2.2.2.2.2.1 rfl,
   (getStatus_pure_snapshot (stateWithReady 4)).2.2.2.2.2.2.2.2.2.2 (by decide)⟩

/-- C9: when the underlying close primitive fails, disconnect rethrows and
the whole state is left as it was: isConnected and connectionPromise keep
their old values, so a manager that was reporting itself connected still
does after the failed disconnect. -/
theorem disconnect_close_failure (s : GlobalState) (h : s.conn.readyState ≠ 0) :
    disconnect s false = (s, Except.error CloseError.closeFailed, true) ∧
    (disconnect s false).1.db.isConnected = s.db.isConnected ∧
    (disconnect s false).1.db.connectionPromise = s.db.connectionPromise ∧
    (s.db.isConnected = true →
      (getConnectionStatus (disconnect s false).1).1.isConnected = true) := by
  have hd : disconnect s false = (s, Except.error CloseError.closeFailed, true) := by
    simp [disconnect, h]
  refine ⟨hd, by rw [hd], by rw [hd], fun hc => ?_⟩
  rw [hd]
  simp [getConnectionStatus, hc]

/-- Witness for C9: a failing close on a connected state. -/
theorem disconnect_close_failure_witness :
    disconnect connectedState false =
      (connectedState, Except.error CloseError.closeFailed, true) ∧
    (getConnectionStatus (disconnect connectedState false).1).1.isConnected = true :=
  ⟨(disconnect_close_failure connectedState (by decide)).1,
   (disconnect_close_failure connectedState (by decide)).2.2.2 rfl⟩

/-- C10: the cached promise outlives the attempt that created it.  No
lifecycle event listener touches connectionPromise; any connect invocation
finding a cached promise returns it before even looking at the connected
state; and the promise is cleared exactly by the rejection continuation and
by a disconnect that actually closes. -/
theorem cached_promise_persistence :
    (∀ (e : LifecycleEvent) (s : GlobalState),
        (emitEvent e s).db.connectionPromise = s.db.connectionPromise) ∧
    (∀ (env : Env) (s : GlobalState) (pid : Nat),
        s.db.connectionPromise = some pid →
        connectPhase1 env s = (s, ConnectAction.awaitExisting pid)) ∧
    (∀ (s : GlobalState) (e : ConnectError),
        (connectResumeRejected s e).1.db.connectionPromise = none) ∧
    (∀ s : GlobalState, s.conn.readyState ≠ 0 →
        (disconnect s true).1.db.connectionPromise = none) := by
  refine ⟨emitEvent_promise, connectPhase1_cached, fun s e => rfl, fun s h => ?_⟩
  simp [disconnect, h, mongooseDisconnect]

/-- Witness for C10: on a connected state with cached promise 0, an
asynchronous disconnected event leaves the promise cached and the next
connect call still awaits promise 0; rejection and real disconnect clear
it. -/
theorem cached_promise_persistence_witness :
    (emitEvent LifecycleEvent.disconnected connectedState).db.connectionPromise =
      connectedState.db.connectionPromise ∧
    connectPhase1 envA connectedState = (connectedState, ConnectAction.awaitExisting 0) ∧
    (connectResumeRejected connectedState ConnectError.rejected).1.db.connectionPromise = none ∧
    (disconnect connectedState true).1.db.connectionPromise = none :=
  ⟨cached_promise_persistence.1 LifecycleEvent.disconnected connectedState,
   cached_promise_persistence.2.1 envA connectedState 0 rfl,
   cached_promise_persistence.2.2.1 connectedState ConnectError.rejected,
   cached_promise_persistence.2.2.2 connectedState (by decide)⟩

/-- One reconnect cycle from a state with no cached promise and flag down,
under a valid configuration: the manager ends disconnected again, with every
listener count, both signal handler counts, the promise counter and the
attempt count each one higher. -/
theorem reconnectCycle_eq (env : Env) (cfg : MongoConfig) (info : ServerInfo)
    (h3 : getConfig env = Except.ok cfg) (s : GlobalState)
    (h1 : s.db.connectionPromise = none) (h2 : s.db.isConnected = false) :
    reconnectCycle env info s =
      { db := { isConnected := false, connectionPromise := none }
        conn := { readyState := 0, host := some info.host, port := some info.port,
                  name := some info.dbName }
        listeners := { connected := s.listeners.connected + 1
                       error := s.listeners.error + 1
                       disconnected := s.listeners.disconnected + 1
                       reconnected := s.listeners.reconnected + 1
                       close := s.listeners.close + 1 }
        signals := { sigint := s.signals.sigint + 1, sigterm := s.signals.sigterm + 1 }
        nextPromiseId := s.nextPromiseId + 1
        attemptsStarted := s.attemptsStarted + 1 } := by
  unfold reconnectCycle
  rw [connectPhase1_slow env s cfg h1 h2 h3]
  simp [startedState, setupEventListeners, mongooseResolve, emitEvent,
        connectResumeSuccess, disconnect, mongooseDisconnect]

/-- C8: every connect invocation that starts a new underlying attempt
registers a fresh listener for each of the five lifecycle events and a fresh
handler for each of SIGINT and SIGTERM, and nothing ever removes one: after n
reconnect cycles from the fresh singleton every count equals n, as does the
number of underlying attempts. -/
theorem listeners_accumulate (env : Env) (cfg : MongoConfig) (info : ServerInfo)
    (h : getConfig env = Except.ok cfg) (n : Nat) :
    ((reconnectCycle env info)^[n] initState).db.connectionPromise = none ∧
    ((reconnectCycle env info)^[n] initState).db.isConnected = false ∧
    ((reconnectCycle env info)^[n] initState).listeners =
      { connected := n, error := n, disconnected := n, reconnected := n, close := n } ∧
    ((reconnectCycle env info)^[n] initState).signals = { sigint := n, sigterm := n } ∧
    ((reconnectCycle env info)^[n] initState).attemptsStarted = n := by
  induction n with
  | zero => exact ⟨rfl, rfl, rfl, rfl, rfl⟩
  | succ n ih =>
    obtain ⟨i1, i2, i3, i4, i5⟩ := ih
    rw [Function.iterate_succ_apply', reconnectCycle_eq env cfg info h _ i1 i2]
    refine ⟨rfl, rfl, ?_, ?_, ?_⟩ <;> simp [i3, i4, i5]

/-- Witness for C8: two reconnect cycles under envA leave two registrations
of every listener and handler and an attempt count of two. -/
theorem listeners_accumulate_witness :
    ((reconnectCycle envA sampleInfo)^[2] initState).db.connectionPromise = none ∧
    ((reconnectCycle envA sampleInfo)^[2] initState).db.isConnected = false ∧
    ((reconnectCycle envA sampleInfo)^[2] initState).listeners =
      { connected := 2, error := 2, disconnected := 2, reconnected := 2, close := 2 } ∧
    ((reconnectCycle envA sampleInfo)^[2] initState).signals = { sigint := 2, sigterm := 2 } ∧
    ((reconnectCycle envA sampleInfo)^[2] initState).attemptsStarted = 2 :=
  listeners_accumulate envA cfgA sampleInfo rfl 2
